import Mathlib

/-!
Shallow embedding of `service/models.py` (Account model with a persistent
base mixin, plus the Product query helpers) and proofs about its
specification.

Python runtime values that flow through dictionaries and record attributes
are modelled by the `Value` type; the SQLAlchemy session is modelled as an
explicit store state (`Session`); `date.today()` readings are passed as
explicit parameters.  Exceptions are modelled by explicit error results.
-/

namespace ServiceModels

/-- A Python calendar date (`datetime.date`): year, month, day. -/
structure PyDate where
  year : Nat
  month : Nat
  day : Nat
deriving DecidableEq, Repr

/-- Leap-year test of the Gregorian calendar (as `calendar.isleap`). -/
def isLeap (y : Nat) : Bool :=
  y % 4 == 0 && (y % 100 != 0 || y % 400 == 0)

/-- Number of days in a month, as validated by `datetime.date`. -/
def daysInMonth (y m : Nat) : Nat :=
  if m = 2 then (if isLeap y then 29 else 28)
  else if m = 4 ∨ m = 6 ∨ m = 9 ∨ m = 11 then 30
  else 31

/-- The range check `datetime.date` performs on its components. -/
def dateOk (y m d : Nat) : Bool :=
  decide (1 ≤ y ∧ y ≤ 9999 ∧ 1 ≤ m ∧ m ≤ 12 ∧ 1 ≤ d ∧ d ≤ daysInMonth y m)

/-- A `PyDate` whose components `datetime.date` would accept. -/
def PyDate.Valid (d : PyDate) : Prop :=
  dateOk d.year d.month d.day = true

/-- The decimal digit character for `n % 10`. -/
def decDigit (n : Nat) : Char :=
  match n % 10 with
  | 0 => '0' | 1 => '1' | 2 => '2' | 3 => '3' | 4 => '4'
  | 5 => '5' | 6 => '6' | 7 => '7' | 8 => '8' | _ => '9'

/-- Numeric value of a decimal digit character. -/
def charVal (c : Char) : Nat := c.toNat - 48

/-- `date.isoformat()`: renders a date as `YYYY-MM-DD` (CPython formats
with `%04d-%02d-%02d`; for dates in `datetime.date`'s range this is the
fixed-width decimal expansion below). -/
def PyDate.isoformat (d : PyDate) : String :=
  String.mk [decDigit (d.year / 1000), decDigit (d.year / 100),
    decDigit (d.year / 10), decDigit d.year, '-',
    decDigit (d.month / 10), decDigit d.month, '-',
    decDigit (d.day / 10), decDigit d.day]

/-- Character-level core of `date.fromisoformat`: accepts exactly
`YYYY-MM-DD` and validates the components. -/
def fromisoChars : List Char → Option PyDate
  | [y1, y2, y3, y4, s1, m1, m2, s2, d1, d2] =>
    if s1 = '-' ∧ s2 = '-' ∧ y1.isDigit ∧ y2.isDigit ∧ y3.isDigit ∧
        y4.isDigit ∧ m1.isDigit ∧ m2.isDigit ∧ d1.isDigit ∧ d2.isDigit then
      let y := charVal y1 * 1000 + charVal y2 * 100 + charVal y3 * 10 + charVal y4
      let m := charVal m1 * 10 + charVal m2
      let d := charVal d1 * 10 + charVal d2
      if dateOk y m d then some ⟨y, m, d⟩ else none
    else none
  | _ => none

/-- `date.fromisoformat`: parses exactly `YYYY-MM-DD` and validates the
components; `none` models the `ValueError` CPython raises otherwise. -/
def PyDate.fromisoformat (s : String) : Option PyDate :=
  fromisoChars s.toList

/-- A Python runtime value as it appears in record attributes and in the
dictionaries passed to `serialize`/`deserialize`. -/
inductive Value where
  | vNone
  | vStr (s : String)
  | vInt (n : Int)
  | vDate (d : PyDate)
deriving DecidableEq, Repr

/-- Python truthiness (`if x:`) for the values above: `None` is falsy, a
string is truthy iff nonempty, an int iff nonzero, a date always. -/
def Value.truthy : Value → Bool
  | .vNone => false
  | .vStr s => !s.toList.isEmpty
  | .vInt n => n != 0
  | .vDate _ => true

/-- The `Account` record: its `id` is `none` until the store assigns one;
the remaining attributes hold arbitrary Python values (a fresh
`Account()` has them all `None`). -/
structure Account where
  id : Option Nat := none
  name : Value := .vNone
  email : Value := .vNone
  address : Value := .vNone
  phone_number : Value := .vNone
  date_joined : Value := .vNone
deriving DecidableEq, Repr

/-- The value the `id` attribute contributes to a serialized mapping. -/
def idValue : Option Nat → Value
  | none => .vNone
  | some n => .vInt n

/-- `Account.serialize`: builds the dictionary
`{id, name, email, address, phone_number, date_joined}` with
`date_joined` rendered by `.isoformat()`.  The result is `none` exactly
when `date_joined` holds no date object, modelling the `AttributeError`
raised by `self.date_joined.isoformat()` in that case.  Pure: it reads
the record and builds a fresh mapping, with no other effect. -/
def Account.serialize (a : Account) : Option (List (String × Value)) :=
  match a.date_joined with
  | .vDate d => some [("id", idValue a.id), ("name", a.name),
      ("email", a.email), ("address", a.address),
      ("phone_number", a.phone_number),
      ("date_joined", .vStr (PyDate.isoformat d))]
  | _ => none

/-- Python dictionary lookup over an association list (keys unique). -/
def dictLookup (entries : List (String × Value)) (k : String) : Option Value :=
  (entries.find? (fun e => e.1 == k)).map (fun e => e.2)

/-- The input passed to `deserialize`: either a dictionary or a
non-mapping such as a Python list. -/
inductive PyInput where
  | dict (entries : List (String × Value))
  | list (elems : List Value)

/-- The exceptions `deserialize`'s attribute accesses can raise. -/
inductive PyExn where
  | keyError (k : String)
  | typeError (msg : String)
deriving DecidableEq, Repr

/-- `data[k]`: dictionary lookup raising `KeyError` on a missing key;
subscripting a list with a string key raises `TypeError`. -/
def PyInput.subscript : PyInput → String → Except PyExn Value
  | .dict entries, k =>
    match dictLookup entries k with
    | some v => .ok v
    | none => .error (.keyError k)
  | .list _, _ =>
    .error (.typeError "list indices must be integers or slices, not str")

/-- `data.get(k)`: dictionary lookup defaulting to `None`.  (On a list
input `deserialize` never reaches a `.get` call: the first subscript
already raised.) -/
def PyInput.get : PyInput → String → Value
  | .dict entries, k => (dictLookup entries k).getD .vNone
  | .list _, _ => .vNone

/-- The errors `deserialize` can surface: the repository's
`DataValidationError` with its message, or an uncaught `ValueError`
propagating out of `date.fromisoformat` (carrying the offending
string). -/
inductive DesErr where
  | dataValidationError (msg : String)
  | valueError (s : String)
deriving DecidableEq, Repr

/-- The `except` clauses of `Account.deserialize`: `KeyError` and
`TypeError` are translated into `DataValidationError` with the messages
built in the source. -/
def translateExn : PyExn → DesErr
  | .keyError k => .dataValidationError ("Invalid Account: missing " ++ k)
  | .typeError m => .dataValidationError
      ("Invalid Account: body of request contained bad or no data - " ++ m)

/-- `Account.deserialize(data)`: assigns `name`, `email`, `address` from
required keys, `phone_number` via `.get`, and `date_joined` from the
optional ISO string (defaulting to `date.today()`, passed here as the
explicit `today` parameter).  The returned record reflects the
assignments made before any error was raised, since the source mutates
`self` field by field inside the `try` block. -/
def Account.deserialize (today : PyDate) (self : Account) (data : PyInput) :
    Account × Option DesErr :=
  match data.subscript "name" with
  | .error e => (self, some (translateExn e))
  | .ok v1 =>
    let a1 : Account := { self with name := v1 }
    match data.subscript "email" with
    | .error e => (a1, some (translateExn e))
    | .ok v2 =>
      let a2 : Account := { a1 with email := v2 }
      match data.subscript "address" with
      | .error e => (a2, some (translateExn e))
      | .ok v3 =>
        let a3 : Account := { a2 with address := v3 }
        let a4 : Account := { a3 with phone_number := data.get "phone_number" }
        let dj := data.get "date_joined"
        if dj.truthy then
          match dj with
          | .vStr s =>
            match PyDate.fromisoformat s with
            | some d => ({ a4 with date_joined := .vDate d }, none)
            | none => (a4, some (.valueError s))
          | _ => (a4, some (.dataValidationError
              ("Invalid Account: body of request contained bad or no data - "
                ++ "fromisoformat: argument must be str")))
        else
          ({ a4 with date_joined := .vDate today }, none)

/-- Modelled from the spec: the store collaborator (`db.session` /
SQLAlchemy engine), which is external to the repository.  It holds the
persisted rows and the next primary key to auto-assign on insert
("insert-and-assign-id" in the spec's interface list). -/
structure Session where
  nextId : Nat := 1
  rows : List Account := []

/-- A well-formed store state: every persisted row carries an id below
the auto-increment counter, so the counter's value is fresh. -/
def Session.WF (s : Session) : Prop :=
  ∀ a ∈ s.rows, ∃ k, a.id = some k ∧ k < s.nextId

/-- `PersistentBase.create`: sets `self.id = None` ("id must be none to
generate next primary key"), then `db.session.add(self)` and `commit()`.
The commit inserts a new row, the store assigns the next primary key to
the record, and the column default for `date_joined` is applied when the
attribute is `None`.  That default is `default=date.today()` in the
source — the call is evaluated once, when the class body is executed as
the module loads — so it is passed here as the fixed `importDefault`
parameter, not as the date current at the time of this call. -/
def Account.create (importDefault : PyDate) (s : Session) (self : Account) :
    Session × Account :=
  let cleared : Account := { self with id := none }
  let keyed : Account := { cleared with id := some s.nextId }
  let assigned : Account :=
    { keyed with date_joined :=
        if keyed.date_joined = .vNone then .vDate importDefault
        else keyed.date_joined }
  ({ nextId := s.nextId + 1, rows := s.rows ++ [assigned] }, assigned)

/-- `PersistentBase.find`: `cls.query.get(by_id)` — primary-key lookup,
returning the row or `None` (never an error). -/
def Account.find (s : Session) (by_id : Nat) : Option Account :=
  s.rows.find? (fun a => a.id == some by_id)

/-- `PersistentBase.delete`: `db.session.delete(self)` and `commit()` —
removes the row whose primary key matches the record's. -/
def Account.delete (s : Session) (self : Account) : Session :=
  { s with rows := s.rows.filter (fun a => a.id != self.id) }

/-- `PersistentBase.all`: `cls.query.all()` — every persisted row. -/
def Account.all (s : Session) : List Account := s.rows

/-- Modelled from the spec: the `Product` record type.  Its class
definition is missing from the source file (only its query classmethods
survive in `models.py`); fields follow the spec's schema, with `price`
an exact decimal, modelled as a rational. -/
structure Product where
  id : Option Nat := none
  name : String := ""
  price : ℚ := 0

/-- The argument accepted by `find_by_price`: a `Decimal` or a string. -/
inductive PriceArg where
  | dec (q : ℚ)
  | str (s : String)

/-- Python `str.strip(chars)`: removes leading and trailing characters
drawn from `chars`. -/
def pyStrip (chars : List Char) (s : String) : String :=
  String.mk (((s.toList.dropWhile (fun c => c ∈ chars)).reverse.dropWhile
    (fun c => c ∈ chars)).reverse)

/-- Numeric value of a list of decimal digit characters. -/
def digitsVal (cs : List Char) : Nat :=
  cs.foldl (fun a c => a * 10 + charVal c) 0

/-- Models `decimal.Decimal(str)` on plain numeric literals: an optional
sign, integer digits, and an optional fractional part (exponent forms,
not exercised by this repository, are out of the model); `none` models
the `InvalidOperation` error raised on malformed input. -/
def parseDecimal (s : String) : Option ℚ :=
  let step : List Char → Option ℚ := fun cs =>
    let intPart := cs.takeWhile (fun c => c ≠ '.')
    let rest := cs.dropWhile (fun c => c ≠ '.')
    match rest with
    | [] =>
      if intPart ≠ [] ∧ intPart.all Char.isDigit then
        some ((digitsVal intPart : ℚ)) else none
    | '.' :: frac =>
      if (intPart ≠ [] ∨ frac ≠ []) ∧ intPart.all Char.isDigit ∧
          frac.all Char.isDigit then
        some ((digitsVal intPart : ℚ) + (digitsVal frac : ℚ) / (10 : ℚ) ^ frac.length)
      else none
    | _ => none
  match s.toList with
  | '-' :: cs => (step cs).map (fun q => -q)
  | '+' :: cs => step cs
  | cs => step cs

/-- `Product.find_by_price`: `price_value = price`, and when the argument
is a string, `price_value = Decimal(price.strip(' "'))`; then
`cls.query.filter(cls.price == price_value)` over the persisted rows.
`none` models the error `Decimal` raises on an unparsable string. -/
def Product.find_by_price (rows : List Product) (price : PriceArg) :
    Option (List Product) :=
  match price with
  | .dec q => some (rows.filter (fun p => p.price == q))
  | .str s =>
    match parseDecimal (pyStrip [' ', '"'] s) with
    | some q => some (rows.filter (fun p => p.price == q))
    | none => none

/-- A concrete populated account used to instantiate general theorems. -/
def sampleAccount : Account :=
  { id := some 3
    name := .vStr "Ann"
    email := .vStr "a@b.c"
    address := .vStr "1 Rd"
    phone_number := .vNone
    date_joined := .vDate ⟨2022, 3, 5⟩ }

/-! ### Helper lemmas -/

theorem charVal_decDigit (n : Nat) : charVal (decDigit n) = n % 10 := by
  have h : n % 10 < 10 := Nat.mod_lt _ (by omega)
  unfold decDigit
  generalize hk : n % 10 = k at h ⊢
  interval_cases k <;> rfl

theorem isDigit_decDigit (n : Nat) : (decDigit n).isDigit = true := by
  have h : n % 10 < 10 := Nat.mod_lt _ (by omega)
  unfold decDigit
  generalize hk : n % 10 = k at h ⊢
  interval_cases k <;> rfl

/-- Parsing an ISO-rendered valid date gives the date back. -/
theorem fromisoformat_isoformat (d : PyDate) (h : d.Valid) :
    PyDate.fromisoformat (PyDate.isoformat d) = some d := by
  obtain ⟨y, m, dy⟩ := d
  have hv : 1 ≤ y ∧ y ≤ 9999 ∧ 1 ≤ m ∧ m ≤ 12 ∧ 1 ≤ dy ∧ dy ≤ daysInMonth y m := by
    rwa [PyDate.Valid, dateOk, decide_eq_true_iff] at h
  rw [PyDate.fromisoformat, PyDate.isoformat]
  show fromisoChars [decDigit (y / 1000), decDigit (y / 100), decDigit (y / 10),
    decDigit y, '-', decDigit (m / 10), decDigit m, '-',
    decDigit (dy / 10), decDigit dy] = some ⟨y, m, dy⟩
  rw [fromisoChars]
  rw [if_pos]
  · have hy : charVal (decDigit (y / 1000)) * 1000 + charVal (decDigit (y / 100)) * 100 +
        charVal (decDigit (y / 10)) * 10 + charVal (decDigit y) = y := by
      rw [charVal_decDigit, charVal_decDigit, charVal_decDigit, charVal_decDigit]
      omega
    have hm : charVal (decDigit (m / 10)) * 10 + charVal (decDigit m) = m := by
      rw [charVal_decDigit, charVal_decDigit]
      omega
    have hdm : daysInMonth y m ≤ 31 := by
      rw [daysInMonth]
      split
      · split <;> omega
      · split <;> omega
    have hd : charVal (decDigit (dy / 10)) * 10 + charVal (decDigit dy) = dy := by
      rw [charVal_decDigit, charVal_decDigit]
      omega
    simp only [hy, hm, hd]
    rw [if_pos]
    rwa [PyDate.Valid] at h
  · refine ⟨rfl, rfl, ?_, ?_, ?_, ?_, ?_, ?_, ?_, ?_⟩ <;> rw [isDigit_decDigit]

instance (d : PyDate) : Decidable d.Valid :=
  Bool.decEq (dateOk d.year d.month d.day) true

/-! ### Claim theorems -/

/-- C4: for every non-mapping input (a Python list), `Account.deserialize`
fails with a `DataValidationError` describing the bad-input condition:
the required-field subscript raises a `TypeError`, which the `except`
clause translates into the validation error; the record is unchanged. -/
theorem deserialize_non_mapping_validation_error (today : PyDate)
    (self : Account) (elems : List Value) :
    Account.deserialize today self (.list elems) =
      (self, some (.dataValidationError
        ("Invalid Account: body of request contained bad or no data - " ++
          "list indices must be integers or slices, not str"))) := rfl

/-- C3: for every input mapping missing a required key, `deserialize`
fails with a `DataValidationError` naming the missing field (`name`,
`email` or `address` in checking order), and `deserialize({})` fails
naming `name`, the first required key checked. -/
theorem deserialize_missing_required_key (today : PyDate) (self : Account)
    (entries : List (String × Value)) :
    (dictLookup entries "name" = none →
      (Account.deserialize today self (.dict entries)).2 =
        some (.dataValidationError "Invalid Account: missing name")) ∧
    (∀ v, dictLookup entries "name" = some v →
      dictLookup entries "email" = none →
      (Account.deserialize today self (.dict entries)).2 =
        some (.dataValidationError "Invalid Account: missing email")) ∧
    (∀ v w, dictLookup entries "name" = some v →
      dictLookup entries "email" = some w →
      dictLookup entries "address" = none →
      (Account.deserialize today self (.dict entries)).2 =
        some (.dataValidationError "Invalid Account: missing address")) ∧
    (Account.deserialize today self (.dict [])).2 =
      some (.dataValidationError "Invalid Account: missing name") := by
  refine ⟨?_, ?_, ?_, rfl⟩
  · intro h
    simp [Account.deserialize, PyInput.subscript, h, translateExn]
  · intro v hv he
    simp [Account.deserialize, PyInput.subscript, hv, he, translateExn]
  · intro v w hv he ha
    simp [Account.deserialize, PyInput.subscript, hv, he, ha, translateExn]

/-- Witness for C3 at concrete inputs: the empty mapping names `name`, a
mapping with only `name` names `email`, one with `name` and `email`
names `address`. -/
theorem deserialize_missing_required_key_witness :
    (Account.deserialize ⟨2020, 1, 1⟩ {}
        (.dict [("email", .vStr "e")])).2 =
      some (.dataValidationError "Invalid Account: missing name") ∧
    (Account.deserialize ⟨2020, 1, 1⟩ {}
        (.dict [("name", .vStr "n")])).2 =
      some (.dataValidationError "Invalid Account: missing email") ∧
    (Account.deserialize ⟨2020, 1, 1⟩ {}
        (.dict [("name", .vStr "n"), ("email", .vStr "e")])).2 =
      some (.dataValidationError "Invalid Account: missing address") ∧
    (Account.deserialize ⟨2020, 1, 1⟩ {} (.dict [])).2 =
      some (.dataValidationError "Invalid Account: missing name") := by
  refine ⟨?_, ?_, ?_, ?_⟩
  · exact (deserialize_missing_required_key ⟨2020, 1, 1⟩ {}
      [("email", .vStr "e")]).1 rfl
  · exact (deserialize_missing_required_key ⟨2020, 1, 1⟩ {}
      [("name", .vStr "n")]).2.1 (.vStr "n") rfl rfl
  · exact (deserialize_missing_required_key ⟨2020, 1, 1⟩ {}
      [("name", .vStr "n"), ("email", .vStr "e")]).2.2.1
      (.vStr "n") (.vStr "e") rfl rfl rfl
  · exact (deserialize_missing_required_key ⟨2020, 1, 1⟩ {} []).2.2.2

/-- C10: when `deserialize` raises on a missing required key, the fields
assigned before the failing access keep their new values — here a
mapping holding only `name` fails on `email`, yet the returned record's
`name` holds the input value; the record is not rolled back. -/
theorem deserialize_error_keeps_assigned_fields (today : PyDate)
    (self : Account) (entries : List (String × Value)) (v : Value)
    (h1 : dictLookup entries "name" = some v)
    (h2 : dictLookup entries "email" = none) :
    Account.deserialize today self (.dict entries) =
      ({ self with name := v },
        some (.dataValidationError "Invalid Account: missing email")) := by
  simp [Account.deserialize, PyInput.subscript, h1, h2, translateExn]

/-- Witness for C10: `deserialize({"name": "Alice"})` on a fresh record
errors on `email` but leaves `name = "Alice"` assigned. -/
theorem deserialize_error_keeps_assigned_fields_witness :
    Account.deserialize ⟨2020, 1, 1⟩ {} (.dict [("name", .vStr "Alice")]) =
      ({ name := .vStr "Alice" },
        some (.dataValidationError "Invalid Account: missing email")) :=
  deserialize_error_keeps_assigned_fields ⟨2020, 1, 1⟩ {}
    [("name", .vStr "Alice")] (.vStr "Alice") rfl rfl

/-- C5 counterexample: `serialize()` does not succeed on every transient
record — on a fresh `Account()` (whose `date_joined` attribute is still
`None`) the call `self.date_joined.isoformat()` raises an
`AttributeError`, modelled by the `none` result. -/
theorem serialize_fails_on_unset_date_joined :
    Account.serialize {} = none := rfl

/-- C5 (amended): for every Account whose `date_joined` holds a date,
`serialize()` succeeds (purely, with no side effect) and produces the
mapping `{id, name, email, address, phone_number, date_joined}`, with
`date_joined` rendered as the ten-character ISO-8601 `YYYY-MM-DD`
string, which parses back to the same date when the date is valid. -/
theorem serialize_mapping_shape (a : Account) (d : PyDate)
    (h : a.date_joined = .vDate d) :
    Account.serialize a = some [("id", idValue a.id), ("name", a.name),
      ("email", a.email), ("address", a.address),
      ("phone_number", a.phone_number),
      ("date_joined", .vStr (PyDate.isoformat d))] ∧
    (PyDate.isoformat d).toList.length = 10 ∧
    (d.Valid → PyDate.fromisoformat (PyDate.isoformat d) = some d) := by
  refine ⟨?_, rfl, fun hv => fromisoformat_isoformat d hv⟩
  rw [Account.serialize, h]

/-- Witness for C5's amended claim at a concrete account. -/
theorem serialize_mapping_shape_witness :
    Account.serialize sampleAccount =
      some [("id", idValue (some 3)), ("name", .vStr "Ann"),
        ("email", .vStr "a@b.c"), ("address", .vStr "1 Rd"),
        ("phone_number", .vNone),
        ("date_joined", .vStr (PyDate.isoformat ⟨2022, 3, 5⟩))] ∧
    PyDate.fromisoformat (PyDate.isoformat ⟨2022, 3, 5⟩) =
      some ⟨2022, 3, 5⟩ := by
  have h := serialize_mapping_shape sampleAccount ⟨2022, 3, 5⟩ rfl
  exact ⟨h.1, h.2.2 (by decide)⟩

/-- `List.find?` skips a prefix on which the predicate is false. -/
theorem find?_append_of_forall_false {α : Type} (p : α → Bool)
    (l1 l2 : List α) (h : ∀ x ∈ l1, p x = false) :
    List.find? p (l1 ++ l2) = List.find? p l2 := by
  induction l1 with
  | nil => rfl
  | cons x xs ih =>
    rw [List.cons_append, List.find?]
    rw [h x (List.mem_cons_self x xs)]
    exact ih (fun y hy => h y (List.mem_cons_of_mem x hy))

/-- C1: `create()` forces the id to `none` before inserting — the result
does not depend on any pre-populated id — and always performs an insert:
the existing rows are untouched and exactly one new row is appended,
carrying the store's next (fresh) primary key. -/
theorem create_always_inserts (importDefault : PyDate) (s : Session)
    (a : Account) :
    ((Account.create importDefault s a).2).id = some s.nextId ∧
    (∀ j, Account.create importDefault s { a with id := j } =
      Account.create importDefault s a) ∧
    (Account.create importDefault s a).1.rows =
      s.rows ++ [(Account.create importDefault s a).2] ∧
    (Session.WF s → ∀ b ∈ s.rows, b.id ≠ some s.nextId) := by
  refine ⟨rfl, fun j => rfl, rfl, fun hw b hb => ?_⟩
  obtain ⟨k, hk, hlt⟩ := hw b hb
  rw [hk]
  intro hcon
  injection hcon with hkk
  omega

/-- Witness for C1 on an empty well-formed store, with a record whose id
was pre-populated. -/
theorem create_always_inserts_witness :
    ((Account.create ⟨2020, 1, 1⟩ ⟨1, []⟩ { sampleAccount with id := some 5 }).2).id =
      some 1 ∧
    (∀ b ∈ ([] : List Account), b.id ≠ some 1) := by
  have h := create_always_inserts ⟨2020, 1, 1⟩ ⟨1, []⟩
    { sampleAccount with id := some 5 }
  exact ⟨h.1, h.2.2.2 (fun b hb => absurd hb (List.not_mem_nil b))⟩

/-- C6 (the code, as written): the `date_joined` column default is
`default=date.today()`, whose call is evaluated once when the class body
runs at import time; persisting a record without `date_joined` therefore
stores that import-time date, which differs from the current date of the
operation whenever the two days differ — contradicting the spec's
"defaults to the current date". -/
theorem date_joined_default_fixed_at_import (importDefault now : PyDate)
    (s : Session) (a : Account)
    (h : a.date_joined = .vNone) (hne : importDefault ≠ now) :
    ((Account.create importDefault s a).2).date_joined =
      .vDate importDefault ∧
    ((Account.create importDefault s a).2).date_joined ≠ .vDate now := by
  have h1 : ((Account.create importDefault s a).2).date_joined =
      .vDate importDefault := by
    simp [Account.create, h]
  refine ⟨h1, ?_⟩
  rw [h1]
  intro hcon
  injection hcon with hd
  exact hne hd

/-- Witness for C6: module imported on 2023-01-01, record created on
2023-01-02 without `date_joined`; the stored date is 2023-01-01. -/
theorem date_joined_default_fixed_at_import_witness :
    ((Account.create ⟨2023, 1, 1⟩ ⟨1, []⟩ {}).2).date_joined =
      .vDate ⟨2023, 1, 1⟩ ∧
    ((Account.create ⟨2023, 1, 1⟩ ⟨1, []⟩ {}).2).date_joined ≠
      .vDate ⟨2023, 1, 2⟩ :=
  date_joined_default_fixed_at_import ⟨2023, 1, 1⟩ ⟨2023, 1, 2⟩ ⟨1, []⟩ {}
    rfl (by decide)

/-- C8: creating a transient record yields a non-null id, and `find` on
the new id returns exactly the persisted record, whose `name`, `email`,
`address` and `phone_number` are those of the input (and `date_joined`
too whenever it was set). -/
theorem create_then_find (importDefault : PyDate) (s : Session)
    (a : Account) (ht : a.id = none) (hw : Session.WF s) :
    ((Account.create importDefault s a).2).id ≠ none ∧
    Account.find (Account.create importDefault s a).1 s.nextId =
      some (Account.create importDefault s a).2 ∧
    ((Account.create importDefault s a).2).name = a.name ∧
    ((Account.create importDefault s a).2).email = a.email ∧
    ((Account.create importDefault s a).2).address = a.address ∧
    ((Account.create importDefault s a).2).phone_number = a.phone_number ∧
    (a.date_joined ≠ .vNone →
      ((Account.create importDefault s a).2).date_joined = a.date_joined) := by
  refine ⟨by simp [Account.create], ?_, rfl, rfl, rfl, rfl, fun hd => ?_⟩
  · rw [Account.find]
    show List.find? _ (s.rows ++ [(Account.create importDefault s a).2]) = _
    rw [find?_append_of_forall_false]
    · have hid : ((Account.create importDefault s a).2).id = some s.nextId := rfl
      simp [List.find?, hid]
    · intro b hb
      obtain ⟨k, hk, hlt⟩ := hw b hb
      simp [hk]
      omega
  · have hidj : ((Account.create importDefault s a).2).date_joined =
        if a.date_joined = .vNone then .vDate importDefault
        else a.date_joined := rfl
    rw [hidj, if_neg hd]

/-- Witness for C8: a transient sample record created against an empty
well-formed store. -/
theorem create_then_find_witness :
    ((Account.create ⟨2020, 1, 1⟩ ⟨1, []⟩ { sampleAccount with id := none }).2).id ≠
      none ∧
    Account.find (Account.create ⟨2020, 1, 1⟩ ⟨1, []⟩
        { sampleAccount with id := none }).1 1 =
      some (Account.create ⟨2020, 1, 1⟩ ⟨1, []⟩
        { sampleAccount with id := none }).2 ∧
    ((Account.create ⟨2020, 1, 1⟩ ⟨1, []⟩ { sampleAccount with id := none }).2).date_joined =
      .vDate ⟨2022, 3, 5⟩ := by
  have h := create_then_find ⟨2020, 1, 1⟩ ⟨1, []⟩
    { sampleAccount with id := none } rfl
    (fun b hb => absurd hb (List.not_mem_nil b))
  exact ⟨h.1, h.2.1, h.2.2.2.2.2.2 (by decide)⟩

/-- C9: after `delete()` on a persisted record, `find` on its former id
returns the not-found value `none` (a normal return, not an error), and
no record with that id remains in `all()`. -/
theorem delete_then_find_none (s : Session) (a : Account) (i : Nat)
    (h : a.id = some i) :
    Account.find (Account.delete s a) i = none ∧
    ∀ b ∈ Account.all (Account.delete s a), b.id ≠ some i := by
  constructor
  · rw [Account.find]
    rw [List.find?_eq_none]
    intro b hb
    have hf := (List.mem_filter.mp hb).2
    simp only [bne_iff_ne, ne_eq] at hf
    simp only [beq_iff_eq]
    rw [h] at hf
    exact hf
  · intro b hb hcon
    have hf := (List.mem_filter.mp hb).2
    rw [hcon, h] at hf
    simp at hf

/-- Witness for C9: deleting the single persisted record of a store. -/
theorem delete_then_find_none_witness :
    Account.find (Account.delete ⟨4, [sampleAccount]⟩ sampleAccount) 3 =
      none ∧
    ∀ b ∈ Account.all (Account.delete ⟨4, [sampleAccount]⟩ sampleAccount),
      b.id ≠ some 3 :=
  delete_then_find_none ⟨4, [sampleAccount]⟩ sampleAccount 3 rfl

/-- Deserializing an explicit serialized-shape mapping with a valid date
reconstructs the fields on a fresh record. -/
theorem deserialize_serialized_shape (today : PyDate) (i : Option Nat)
    (nm em ad ph : Value) (d : PyDate) (hv : d.Valid) :
    Account.deserialize today {} (.dict [("id", idValue i), ("name", nm),
      ("email", em), ("address", ad), ("phone_number", ph),
      ("date_joined", .vStr (PyDate.isoformat d))]) =
      ({ id := none, name := nm, email := em, address := ad,
         phone_number := ph, date_joined := .vDate d }, none) := by
  have hn : PyInput.subscript (.dict [("id", idValue i), ("name", nm),
      ("email", em), ("address", ad), ("phone_number", ph),
      ("date_joined", .vStr (PyDate.isoformat d))]) "name" = .ok nm := rfl
  have he : PyInput.subscript (.dict [("id", idValue i), ("name", nm),
      ("email", em), ("address", ad), ("phone_number", ph),
      ("date_joined", .vStr (PyDate.isoformat d))]) "email" = .ok em := rfl
  have ha : PyInput.subscript (.dict [("id", idValue i), ("name", nm),
      ("email", em), ("address", ad), ("phone_number", ph),
      ("date_joined", .vStr (PyDate.isoformat d))]) "address" = .ok ad := rfl
  have hp : PyInput.get (.dict [("id", idValue i), ("name", nm),
      ("email", em), ("address", ad), ("phone_number", ph),
      ("date_joined", .vStr (PyDate.isoformat d))]) "phone_number" = ph := rfl
  have hdj : PyInput.get (.dict [("id", idValue i), ("name", nm),
      ("email", em), ("address", ad), ("phone_number", ph),
      ("date_joined", .vStr (PyDate.isoformat d))]) "date_joined" =
      .vStr (PyDate.isoformat d) := rfl
  have htr : Value.truthy (.vStr (PyDate.isoformat d)) = true := rfl
  simp only [Account.deserialize, hn, he, ha, hp, hdj, htr,
    fromisoformat_isoformat d hv, if_true]

/-- C2: for every account whose `date_joined` holds a valid date (so
`date_joined` is present in the serialized mapping),
`deserialize(serialize(x))` on a fresh account reconstructs a record
whose `name`, `email`, `address`, `phone_number` and `date_joined` equal
those of `x`, with no error — an exact round-trip. -/
theorem serialize_deserialize_roundtrip (x : Account) (d today : PyDate)
    (m : List (String × Value)) (hdj : x.date_joined = .vDate d)
    (hv : d.Valid) (hs : Account.serialize x = some m) :
    Account.deserialize today {} (.dict m) =
      ({ id := none, name := x.name, email := x.email, address := x.address,
         phone_number := x.phone_number, date_joined := x.date_joined },
        none) := by
  rw [Account.serialize, hdj] at hs
  injection hs with hm
  rw [← hm, hdj]
  exact deserialize_serialized_shape today x.id x.name x.email x.address
    x.phone_number d hv

/-- Witness for C2 at the concrete sample account. -/
theorem serialize_deserialize_roundtrip_witness :
    Account.deserialize ⟨2020, 1, 1⟩ {}
      (.dict [("id", idValue (some 3)), ("name", .vStr "Ann"),
        ("email", .vStr "a@b.c"), ("address", .vStr "1 Rd"),
        ("phone_number", .vNone),
        ("date_joined", .vStr (PyDate.isoformat ⟨2022, 3, 5⟩))]) =
      ({ id := none, name := .vStr "Ann", email := .vStr "a@b.c",
         address := .vStr "1 Rd", phone_number := .vNone,
         date_joined := .vDate ⟨2022, 3, 5⟩ }, none) :=
  serialize_deserialize_roundtrip sampleAccount ⟨2022, 3, 5⟩ ⟨2020, 1, 1⟩
    [("id", idValue (some 3)), ("name", .vStr "Ann"),
      ("email", .vStr "a@b.c"), ("address", .vStr "1 Rd"),
      ("phone_number", .vNone),
      ("date_joined", .vStr (PyDate.isoformat ⟨2022, 3, 5⟩))]
    rfl (by decide) rfl

/-- C7: `find_by_price` accepts a decimal or a string with stray
whitespace and quote characters; the string is stripped and parsed as an
exact decimal before the equality match, so the decimal `12.50` and the
padded string `' "12.50" '` select exactly the same stored products. -/
theorem find_by_price_strips_and_parses (rows : List Product) :
    Product.find_by_price rows (.str " \"12.50\" ") =
      some (rows.filter (fun p => p.price == (12.50 : ℚ))) ∧
    Product.find_by_price rows (.dec (12.50 : ℚ)) =
      some (rows.filter (fun p => p.price == (12.50 : ℚ))) := by
  constructor
  · have h1 : pyStrip [' ', '"'] " \"12.50\" " = "12.50" := by decide
    have h2 : parseDecimal "12.50" =
        some ((digitsVal ['1', '2'] : ℚ) +
          (digitsVal ['5', '0'] : ℚ) / (10 : ℚ) ^ (2 : ℕ)) := rfl
    have h3 : ((digitsVal ['1', '2'] : ℚ) +
        (digitsVal ['5', '0'] : ℚ) / (10 : ℚ) ^ (2 : ℕ)) = (12.50 : ℚ) := by
      have e1 : digitsVal ['1', '2'] = 12 := rfl
      have e2 : digitsVal ['5', '0'] = 50 := rfl
      rw [e1, e2]
      norm_num
    rw [Product.find_by_price, h1, h2, h3]
  · rfl

end ServiceModels
